import Mathlib

/-
Verification of the batch-job lifecycle and checkpoint/resume subsystem of the
Batch-Short-Anime-Movie pipeline.  Each definition is a shallow embedding of one
Python function from scripts/ (the source file and function are named in the
doc comment); external effects (OpenAI / Anthropic / MiniMax API calls, Google
Drive access, subprocess execution, filesystem writes) are modelled as explicit
oracles and event traces.
-/

namespace AnimeBatch

/-! ## Model selection policy (scripts/Batch/p2_gpt_batch_submit.py) -/

/-- Price of one gpt-image-1 image in thousandths of a USD
(MODEL_PRICES["gpt-image-1"] = 0.25). -/
def MODEL_PRICE_GPT_IMAGE_1 : Nat := 250

/-- Price of one gpt-image-1-mini image in thousandths of a USD
(MODEL_PRICES["gpt-image-1-mini"] = 0.052). -/
def MODEL_PRICE_GPT_IMAGE_1_MINI : Nat := 52

/-- Embedding of select_model_for_image (p2_gpt_batch_submit.py, lines 41-56):
the high-quality model is chosen when index == 1 or index >= total_count - 1,
otherwise the mini model.  Indices are Python ints, hence Int here. -/
def select_model_for_image (index : Int) (total_count : Int) : String × Nat :=
  if index = 1 ∨ index ≥ total_count - 1 then
    ("gpt-image-1", MODEL_PRICE_GPT_IMAGE_1)
  else
    ("gpt-image-1-mini", MODEL_PRICE_GPT_IMAGE_1_MINI)

/-! ## Phase-2 submit flow (scripts/Batch/p2_gpt_batch_submit.py, main) -/

/-- Zero-padding of a natural number to a given width, as in Python str.zfill. -/
def pad_nat (n width : Nat) : String :=
  let s := toString n
  String.mk (List.replicate (width - s.length) '0') ++ s

/-- Embedding of the Python format f"{i:03d}": total width 3 including the sign. -/
def zfill3 (i : Int) : String :=
  if i < 0 then "-" ++ pad_nat (-i).toNat 2 else pad_nat i.toNat 3

/-- One record parsed from prompts_data.jsonl (fields index and image_prompt). -/
structure PromptRecord where
  index : Int
  image_prompt : String
deriving DecidableEq, Repr

/-- One line of the gpt_batch_requests.jsonl file built by create_batch_file
(p2_gpt_batch_submit.py, lines 178-224).  The constant body fields (url, size,
quality, output_format) are the same for every request and are omitted. -/
structure BatchRequest where
  custom_id : String
  model : String
  prompt : String
deriving DecidableEq, Repr

/-- The per-request part of create_batch_file: custom_id f"image_{index:03d}"
and the model chosen by select_model_for_image. -/
def create_batch_requests_gpt (prompts_to_process : List PromptRecord)
    (total_count : Int) : List BatchRequest :=
  prompts_to_process.map (fun p =>
    { custom_id := "image_" ++ zfill3 p.index,
      model := (select_model_for_image p.index total_count).1,
      prompt := p.image_prompt })

/-- Outcome of the submit-phase decision logic in main
(p2_gpt_batch_submit.py, lines 315-352). -/
inductive P2SubmitResult where
  /-- sys.exit(0) at line 325: all images already exist, phase skipped. -/
  | skip_all_done : P2SubmitResult
  /-- sys.exit(0) at line 345: nothing left to process after filtering. -/
  | skip_nothing_to_do : P2SubmitResult
  /-- create_batch_file + submit_batch_job run with these requests. -/
  | submit (requests : List BatchRequest) : P2SubmitResult
deriving DecidableEq, Repr

/-- External / filesystem actions the submit phase can perform. -/
inductive P2Action where
  | write_batch_file (requests : List BatchRequest)
  | upload_batch_file
  | create_batch
deriving DecidableEq, Repr

/-- Embedding of the decision portion of main (p2_gpt_batch_submit.py,
lines 315-352), as a function of the loaded prompt list, the checkpoint result
(existing image file names) and TEST_MODE_LIMIT.  Mirrors the source order:
the all-done check, then the filter on existing f"{index:03d}.png" names,
then the test-mode truncation, then the empty check. -/
def p2_submit_decision (prompt_data_list : List PromptRecord)
    (existing_images : List String) (test_mode_limit : Nat) : P2SubmitResult :=
  if existing_images.length ≥ prompt_data_list.length then
    P2SubmitResult.skip_all_done
  else
    let total_count : Int := prompt_data_list.length
    let prompts_to_process := prompt_data_list.filter
      (fun p => !(existing_images.contains (zfill3 p.index ++ ".png")))
    let prompts_to_process :=
      if 0 < test_mode_limit then prompts_to_process.take test_mode_limit
      else prompts_to_process
    if prompts_to_process.isEmpty then P2SubmitResult.skip_nothing_to_do
    else P2SubmitResult.submit (create_batch_requests_gpt prompts_to_process total_count)

/-- The external actions performed for each decision outcome: the skip branches
exit with status 0 before create_batch_file and submit_batch_job run. -/
def p2_submit_actions : P2SubmitResult → List P2Action
  | P2SubmitResult.skip_all_done => []
  | P2SubmitResult.skip_nothing_to_do => []
  | P2SubmitResult.submit reqs =>
      [P2Action.write_batch_file reqs, P2Action.upload_batch_file, P2Action.create_batch]

/-! ## Batch submission calls (p2_gpt_batch_submit.py / p1_claude_batch_submit.py) -/

/-- Contents of gpt_batch_info.json written by submit_batch_job
(p2_gpt_batch_submit.py, lines 256-266). -/
structure GptBatchInfo where
  batch_id : String
  input_file_id : String
  submitted_at : String
  status : String
  batch_file_path : String
deriving DecidableEq, Repr

/-- Embedding of submit_batch_job (p2_gpt_batch_submit.py, lines 227-270).
upload_file models client.files.create and create_batch models
client.batches.create; both may raise (Except.error).  The second component is
the list of gpt_batch_info.json writes performed; the write happens only after
both external calls have succeeded, exactly as in the source. -/
def submit_batch_job_gpt (upload_file : Except String String)
    (create_batch : String → Except String String) (now : String)
    (batch_file_path : String) : Except String String × List GptBatchInfo :=
  match upload_file with
  | Except.error e => (Except.error e, [])
  | Except.ok input_file_id =>
    match create_batch input_file_id with
    | Except.error e => (Except.error e, [])
    | Except.ok batch_id =>
      (Except.ok batch_id,
       [{ batch_id := batch_id, input_file_id := input_file_id,
          submitted_at := now, status := "validating",
          batch_file_path := batch_file_path }])

/-- Contents of batch_info.json written by submit_batch_job
(p1_claude_batch_submit.py, lines 103-112). -/
structure ClaudeBatchInfo where
  batch_id : String
  submitted_at : String
  request_count : Nat
  status : String
deriving DecidableEq, Repr

/-- Embedding of submit_batch_job (p1_claude_batch_submit.py, lines 90-115).
create_batch models client.messages.batches.create; the batch_info.json write
happens only after the call has succeeded. -/
def submit_batch_job_claude (create_batch : Except String String) (now : String)
    (request_count : Nat) : Except String String × List ClaudeBatchInfo :=
  match create_batch with
  | Except.error e => (Except.error e, [])
  | Except.ok batch_id =>
    (Except.ok batch_id,
     [{ batch_id := batch_id, submitted_at := now,
        request_count := request_count, status := "processing" }])

/-! ## Claim C2, C10, C5, C6 theorems -/

/-- C2 counterexample: the claim says the high-fidelity variant goes to exactly
the first item (index 1) and the last item (index = total); but
select_model_for_image gives the high model to index 49 of 50 as well
(the source comment says the first and the LAST TWO are high quality). -/
theorem select_model_counterexample_second_to_last :
    (select_model_for_image 49 50).1 = "gpt-image-1"
    ∧ (49 : Int) ≠ 1 ∧ (49 : Int) ≠ 50 := by
  refine ⟨rfl, by decide, by decide⟩

/-- C2 amended: select_model_for_image is a pure function of (index, total);
it returns the high variant exactly for index 1 and for every index ≥ total - 1
(the last two positions when total ≥ 3), the mini variant otherwise; in
particular policy(1,50) and policy(50,50) are high and policy(25,50) is mini. -/
theorem select_model_policy_characterization : ∀ (index total : Int),
    ((select_model_for_image index total).1 = "gpt-image-1"
      ↔ (index = 1 ∨ total - 1 ≤ index))
    ∧ (select_model_for_image 1 50).1 = "gpt-image-1"
    ∧ (select_model_for_image 50 50).1 = "gpt-image-1"
    ∧ (select_model_for_image 25 50).1 = "gpt-image-1-mini" := by
  intro index total
  refine ⟨?_, rfl, rfl, rfl⟩
  unfold select_model_for_image
  by_cases h : index = 1 ∨ index ≥ total - 1
  · rw [if_pos h]
    exact ⟨fun _ => h, fun _ => rfl⟩
  · rw [if_neg h]
    constructor
    · intro hc
      exact absurd hc (by decide)
    · intro hc
      exfalso
      push_neg at h
      rcases hc with h1 | h2
      · exact h.1 h1
      · omega

/-- C10: for totals of 3 or fewer every in-range index gets the high-quality
model, and the mini model is only ever chosen when total ≥ 4 and the index is
strictly between 1 and total - 1. -/
theorem select_model_small_totals_all_high : ∀ (index total : Int),
    1 ≤ index → index ≤ total →
    (total ≤ 3 → (select_model_for_image index total).1 = "gpt-image-1")
    ∧ ((select_model_for_image index total).1 = "gpt-image-1-mini" →
        4 ≤ total ∧ 1 < index ∧ index < total - 1) := by
  intro index total h1 h2
  unfold select_model_for_image
  by_cases h : index = 1 ∨ index ≥ total - 1
  · rw [if_pos h]
    refine ⟨fun _ => rfl, fun hcontra => absurd hcontra (by decide)⟩
  · rw [if_neg h]
    push_neg at h
    refine ⟨fun h3 => ?_, fun _ => ?_⟩
    · exact absurd h3 (by omega)
    · omega

/-- Witness for C10 at index 2 of total 3. -/
theorem select_model_small_totals_all_high_witness :
    (select_model_for_image 2 3).1 = "gpt-image-1" :=
  (select_model_small_totals_all_high 2 3 (by decide) (by decide)).1 (by decide)

/-- C5: if the checkpoint reports at least as many existing images as the
expected total, the submit phase exits successfully at the all-done branch and
performs zero external actions (no batch file write, no upload, no batch
creation). -/
theorem p2_skips_when_done_count_reaches_total :
    ∀ (prompts : List PromptRecord) (existing : List String) (lim : Nat),
    existing.length ≥ prompts.length →
    p2_submit_decision prompts existing lim = P2SubmitResult.skip_all_done
    ∧ p2_submit_actions (p2_submit_decision prompts existing lim) = [] := by
  intro prompts existing lim h
  have hd : p2_submit_decision prompts existing lim = P2SubmitResult.skip_all_done := by
    unfold p2_submit_decision
    rw [if_pos h]
  exact ⟨hd, by rw [hd]; rfl⟩

/-- Witness for C5: three prompts, three existing images. -/
theorem p2_skips_when_done_count_reaches_total_witness :
    p2_submit_decision
      [⟨1, "a"⟩, ⟨2, "b"⟩, ⟨3, "c"⟩] ["001.png", "002.png", "003.png"] 0
      = P2SubmitResult.skip_all_done :=
  (p2_skips_when_done_count_reaches_total
    [⟨1, "a"⟩, ⟨2, "b"⟩, ⟨3, "c"⟩] ["001.png", "002.png", "003.png"] 0
    (by decide)).1

/-- C6: if the external submission call fails at any point, no job-descriptor
file is persisted and the error propagates to the caller.  Covers both the GPT
image submitter (file upload failure or batch-creation failure) and the Claude
prompt submitter. -/
theorem submit_failure_persists_nothing
    (upload : Except String String) (create : String → Except String String)
    (now path : String) (create_claude : Except String String)
    (now_claude : String) (n : Nat) (e : String) :
    (upload = Except.error e →
      submit_batch_job_gpt upload create now path = (Except.error e, []))
    ∧ (∀ fid, upload = Except.ok fid → create fid = Except.error e →
        submit_batch_job_gpt upload create now path = (Except.error e, []))
    ∧ (create_claude = Except.error e →
        submit_batch_job_claude create_claude now_claude n = (Except.error e, [])) := by
  refine ⟨?_, ?_, ?_⟩
  · intro h; rw [h]; rfl
  · intro fid h1 h2
    subst h1
    simp [submit_batch_job_gpt, h2]
  · intro h; rw [h]; rfl

/-- Witness for C6: an upload failure yields an error result and no
gpt_batch_info.json write. -/
theorem submit_failure_persists_nothing_witness :
    submit_batch_job_gpt (Except.error "boom") (fun _ => Except.ok "b") "t" "p"
      = (Except.error "boom", []) :=
  (submit_failure_persists_nothing (Except.error "boom") (fun _ => Except.ok "b")
    "t" "p" (Except.ok "z") "t2" 0 "boom").1 rfl

/-! ## Drive checkpoint resolution (scripts/gdrive_checkpoint.py) -/

/-- Result of check_drive_checkpoint: an existing-prompt count for
checkpoint_type "prompts", an existing-image file-name list for "images". -/
inductive CheckpointOutcome where
  | prompts (n : Nat)
  | images (files : List String)
deriving DecidableEq, Repr

/-- Oracles for every remote operation check_drive_checkpoint can perform.
Except.error models a raised exception; authenticate_gdrive can also return
None without raising (Except.ok none).  find_project_folder_on_drive catches
its own exceptions and returns None, hence a plain Option.
promptsContent models the downloaded prompts_data.jsonl where each line is the
result of json.loads: none for a JSONDecodeError, otherwise the keys of the
parsed object. -/
structure DriveEnv where
  auth : Except String (Option Unit)
  buildService : Except String Unit
  findProjectFolder : Option String
  promptsQuery : Except String (List String)
  promptsContent : Except String (List (Option (List String)))
  imagesFolder : Except String (Option String)
  imagesList : Except String (List String)

/-- Embedding of get_existing_prompts_count (gdrive_checkpoint.py, lines
78-137): any exception (query or download) yields 0; otherwise lines that
parse as JSON objects carrying both an index and an image_prompt key are
counted. -/
def get_existing_prompts_count (env : DriveEnv) : Nat :=
  match env.promptsQuery with
  | Except.error _ => 0
  | Except.ok files =>
    if files.isEmpty then 0
    else
      match env.promptsContent with
      | Except.error _ => 0
      | Except.ok lines =>
        ((lines.filterMap id).filter
          (fun keys => keys.contains "index" && keys.contains "image_prompt")).length

/-- Embedding of get_existing_images_list (gdrive_checkpoint.py, lines
140-185): any exception yields []; a missing images folder yields []; else the
.png entries of the folder listing, sorted. -/
def get_existing_images_list (env : DriveEnv) : List String :=
  match env.imagesFolder with
  | Except.error _ => []
  | Except.ok none => []
  | Except.ok (some _) =>
    match env.imagesList with
    | Except.error _ => []
    | Except.ok names =>
      (names.filter (fun n => n.endsWith ".png")).mergeSort (fun a b => a ≤ b)

/-- The zero-done fallback value check_drive_checkpoint returns on any failure:
0 for checkpoint_type "prompts", the empty list otherwise. -/
def zero_done (checkpoint_type : String) : CheckpointOutcome :=
  if checkpoint_type = "prompts" then CheckpointOutcome.prompts 0
  else CheckpointOutcome.images []

/-- Embedding of check_drive_checkpoint (gdrive_checkpoint.py, lines 188-231).
The outer try/except catches every exception (auth, service build, the
ValueError for an unknown checkpoint_type) and degrades to zero_done; auth
returning None and a missing project folder degrade the same way. -/
def check_drive_checkpoint (env : DriveEnv) (checkpoint_type : String) :
    CheckpointOutcome :=
  match env.auth with
  | Except.error _ => zero_done checkpoint_type
  | Except.ok none => zero_done checkpoint_type
  | Except.ok (some _) =>
    match env.buildService with
    | Except.error _ => zero_done checkpoint_type
    | Except.ok _ =>
      match env.findProjectFolder with
      | none => zero_done checkpoint_type
      | some _ =>
        if checkpoint_type = "prompts" then
          CheckpointOutcome.prompts (get_existing_prompts_count env)
        else if checkpoint_type = "images" then
          CheckpointOutcome.images (get_existing_images_list env)
        else
          zero_done checkpoint_type

/-! ## API retry utility (scripts/api_retry_utils.py) -/

/-- Whether the character list p is a prefix of the character list s. -/
def list_starts_with : List Char → List Char → Bool
  | [], _ => true
  | _ :: _, [] => false
  | a :: as, b :: bs => a == b && list_starts_with as bs

/-- Whether pat occurs as a contiguous sublist of the character list. -/
def contains_sub_aux (pat : List Char) : List Char → Bool
  | [] => pat.isEmpty
  | c :: rest => list_starts_with pat (c :: rest) || contains_sub_aux pat rest

/-- Lowercasing as Python str.lower on the ASCII strings in play. -/
def py_lower (s : String) : String := String.mk (s.data.map Char.toLower)

/-- Embedding of the Python test: pat in str(e).lower(), where pat is one of
the lowercase keyword literals. -/
def str_contains_sub (s pat : String) : Bool :=
  contains_sub_aux pat.data (py_lower s).data

/-- The keywords call_api_with_retry itself treats as non-retryable
(api_retry_utils.py, lines 67-77): moderation errors and credit/billing
errors re-raise immediately. -/
def abort_immediately (e : String) : Bool :=
  str_contains_sub e "content_policy" || str_contains_sub e "moderation" ||
  str_contains_sub e "credit" || str_contains_sub e "billing"

/-- Result of a call_api_with_retry run. -/
inductive RetryResult (α : Type) where
  /-- the wrapped call returned normally -/
  | ok (a : α) : RetryResult α
  /-- an exception was re-raised to the caller -/
  | raised (e : String) : RetryResult α
  /-- max_retries = 0: the for loop never runs and the function falls off the
  end returning None -/
  | none_return : RetryResult α
deriving DecidableEq, Repr

/-- Loop body of call_api_with_retry (api_retry_utils.py, lines 53-99).
api gives the outcome of the attempt numbered retry (0-based); remaining is
the number of loop iterations left; the accumulators carry the attempts made
so far and the sleep durations performed (base_delay * (retry + 1) before each
re-attempt).  Returns (outcome, total calls made, sleeps). -/
def retry_loop (api : Nat → Except String α) (base_delay max_retries : Nat) :
    Nat → Nat → Option String → Nat → List Nat → RetryResult α × Nat × List Nat
  | 0, _, last, calls, sleeps =>
    (match last with
     | some e => RetryResult.raised e
     | none => RetryResult.none_return, calls, sleeps)
  | remaining + 1, retry, _, calls, sleeps =>
    match api retry with
    | Except.ok a => (RetryResult.ok a, calls + 1, sleeps)
    | Except.error e =>
      if abort_immediately e then (RetryResult.raised e, calls + 1, sleeps)
      else if retry < max_retries - 1 then
        retry_loop api base_delay max_retries remaining (retry + 1) (some e)
          (calls + 1) (sleeps ++ [base_delay * (retry + 1)])
      else (RetryResult.raised e, calls + 1, sleeps)

/-- Embedding of call_api_with_retry (api_retry_utils.py, lines 22-99):
run the loop for max_retries iterations starting at retry 0. -/
def call_api_with_retry (api : Nat → Except String α)
    (max_retries base_delay : Nat) : RetryResult α × Nat × List Nat :=
  retry_loop api base_delay max_retries max_retries 0 none 0 []

/-- The non-retryable keyword list of is_retryable_error
(api_retry_utils.py, lines 115-122). -/
def NON_RETRYABLE_KEYWORDS : List String :=
  ["content_policy", "moderation", "credit", "billing", "invalid_api_key",
   "authentication"]

/-- The retryable keyword list of is_retryable_error
(api_retry_utils.py, lines 129-137). -/
def RETRYABLE_KEYWORDS : List String :=
  ["timeout", "connection", "network", "503", "502", "500", "429"]

/-- Embedding of is_retryable_error (api_retry_utils.py, lines 102-144).
Note this classifier is never consulted by call_api_with_retry (it has no
callers anywhere in the repository). -/
def is_retryable_error (e : String) : Bool :=
  if NON_RETRYABLE_KEYWORDS.any (fun kw => str_contains_sub e kw) then false
  else if RETRYABLE_KEYWORDS.any (fun kw => str_contains_sub e kw) then true
  else true

/-! ## Claim C7 and C8 theorems -/

/-- C7: any exception during remote checkpoint resolution (auth error or auth
returning no credentials, service-build error, project-folder lookup failure,
prompt query or download error, image folder or listing error) degrades the
result to zero done: count 0 for prompt checkpoints, the empty list for image
checkpoints, and never propagates. -/
theorem checkpoint_errors_degrade_to_zero_done (env : DriveEnv)
    (t e : String) :
    ((env.auth = Except.error e ∨ env.auth = Except.ok none
        ∨ env.buildService = Except.error e ∨ env.findProjectFolder = none) →
      check_drive_checkpoint env t = zero_done t)
    ∧ (env.promptsQuery = Except.error e →
        check_drive_checkpoint env "prompts" = CheckpointOutcome.prompts 0)
    ∧ (env.promptsContent = Except.error e →
        check_drive_checkpoint env "prompts" = CheckpointOutcome.prompts 0)
    ∧ (env.imagesFolder = Except.error e →
        check_drive_checkpoint env "images" = CheckpointOutcome.images [])
    ∧ (env.imagesList = Except.error e →
        check_drive_checkpoint env "images" = CheckpointOutcome.images []) := by
  obtain ⟨auth, svc, folder, pq, pc, imf, iml⟩ := env
  refine ⟨?_, ?_, ?_, ?_, ?_⟩
  · rintro (h | h | h | h)
    · subst h; rfl
    · subst h; rfl
    · subst h
      cases auth with
      | error _ => rfl
      | ok o =>
        cases o with
        | none => rfl
        | some _ => rfl
    · subst h
      cases auth with
      | error _ => rfl
      | ok o =>
        cases o with
        | none => rfl
        | some _ =>
          cases svc with
          | error _ => rfl
          | ok _ => rfl
  · intro h
    subst h
    cases auth with
    | error _ => rfl
    | ok o =>
      cases o with
      | none => rfl
      | some _ =>
        cases svc with
        | error _ => rfl
        | ok _ =>
          cases folder with
          | none => rfl
          | some _ =>
            simp only [check_drive_checkpoint, get_existing_prompts_count]
            rfl
  · intro h
    subst h
    cases auth with
    | error _ => rfl
    | ok o =>
      cases o with
      | none => rfl
      | some _ =>
        cases svc with
        | error _ => rfl
        | ok _ =>
          cases folder with
          | none => rfl
          | some _ =>
            show CheckpointOutcome.prompts _ = CheckpointOutcome.prompts 0
            congr 1
            unfold get_existing_prompts_count
            cases pq with
            | error _ => rfl
            | ok files =>
              by_cases hf : files.isEmpty <;> simp [hf]
  · intro h
    subst h
    cases auth with
    | error _ => rfl
    | ok o =>
      cases o with
      | none => rfl
      | some _ =>
        cases svc with
        | error _ => rfl
        | ok _ =>
          cases folder with
          | none => rfl
          | some _ => rfl
  · intro h
    subst h
    cases auth with
    | error _ => rfl
    | ok o =>
      cases o with
      | none => rfl
      | some _ =>
        cases svc with
        | error _ => rfl
        | ok _ =>
          cases folder with
          | none => rfl
          | some _ =>
            show CheckpointOutcome.images _ = CheckpointOutcome.images []
            congr 1
            unfold get_existing_images_list
            cases imf with
            | error _ => rfl
            | ok o2 => cases o2 <;> rfl

/-- Witness for C7: an authentication exception degrades an image checkpoint
to the empty list. -/
theorem checkpoint_errors_degrade_to_zero_done_witness :
    check_drive_checkpoint
      { auth := Except.error "auth down", buildService := Except.ok (),
        findProjectFolder := some "fid", promptsQuery := Except.ok [],
        promptsContent := Except.ok [], imagesFolder := Except.ok none,
        imagesList := Except.ok [] } "images"
      = zero_done "images" :=
  (checkpoint_errors_degrade_to_zero_done
    { auth := Except.error "auth down", buildService := Except.ok (),
      findProjectFolder := some "fid", promptsQuery := Except.ok [],
      promptsContent := Except.ok [], imagesFolder := Except.ok none,
      imagesList := Except.ok [] } "images" "auth down").1
    (Or.inl rfl)

/-- C8 counterexample: an authentication error is NOT aborted on the first
attempt by call_api_with_retry.  With every attempt failing with an
invalid-api-key authentication message, max_retries = 3 and base_delay = 5,
the wrapper makes 3 calls and sleeps twice (5 s then 10 s) before finally
re-raising — even though is_retryable_error classifies the same message as
non-retryable (that classifier has no callers). -/
theorem auth_error_is_retried_counterexample :
    call_api_with_retry
        (fun _ => (Except.error "AuthenticationError: invalid_api_key" :
          Except String Unit)) 3 5
      = (RetryResult.raised "AuthenticationError: invalid_api_key", 3, [5, 10])
    ∧ is_retryable_error "AuthenticationError: invalid_api_key" = false := by
  exact ⟨rfl, rfl⟩

/-- C8 amended: an error whose message carries the credit or billing keyword
(the code's test for a non-retryable account error) aborts on the very first
attempt: exactly one call, no sleep, and the error is re-raised unchanged.
Authentication errors receive no such treatment from call_api_with_retry. -/
theorem billing_error_aborts_immediately (api : Nat → Except String α)
    (max_retries base_delay : Nat) (e : String) (hmr : 0 < max_retries)
    (h0 : api 0 = Except.error e)
    (hkw : str_contains_sub e "credit" = true ∨ str_contains_sub e "billing" = true) :
    call_api_with_retry api max_retries base_delay
      = (RetryResult.raised e, 1, []) := by
  obtain ⟨k, rfl⟩ : ∃ k, max_retries = k + 1 :=
    ⟨max_retries - 1, by omega⟩
  have habort : abort_immediately e = true := by
    unfold abort_immediately
    rcases hkw with h | h <;> rw [h] <;> simp
  unfold call_api_with_retry
  unfold retry_loop
  rw [h0]
  simp [habort]

/-- Witness for C8: a billing hard-limit error aborts after one call with no
sleeps. -/
theorem billing_error_aborts_immediately_witness :
    call_api_with_retry
        (fun _ => (Except.error "Billing hard limit has been reached" :
          Except String Unit)) 3 5
      = (RetryResult.raised "Billing hard limit has been reached", 1, []) :=
  billing_error_aborts_immediately
    (fun _ => (Except.error "Billing hard limit has been reached" :
      Except String Unit)) 3 5
    "Billing hard limit has been reached" (by decide) rfl (Or.inr rfl)

/-! ## Watcher/Crawler loop (scripts/Batch/batch_crawler.py) -/

/-- One entry of the batch_status.json registry (load_batch_status docstring,
batch_crawler.py lines 44-66, and register_batch lines 88-97). -/
structure ProjectInfo where
  batch_id : String
  batch_type : String
  status : String
  submitted_at : String
  last_checked : Option String
  output_dir : String
  model_name : String
  retry_count : Nat
deriving DecidableEq, Repr

/-- The persisted registry: project name to ProjectInfo, in dict insertion
order. -/
abbrev Registry := List (String × ProjectInfo)

/-- The statuses the crawler treats as already handled and skips
(batch_crawler.py line 273). -/
def terminal_statuses : List String := ["completed", "failed", "expired", "cancelled"]

/-- Observable events of one crawler cycle: an API status check of one job,
a save_batch_status write of the registry file, and the persistent-API-error
warning log line. -/
inductive CrawlerEvent where
  | check (project : String) (new_status : String)
  | save (registry : Registry)
  | warn_persistent (project : String)
deriving DecidableEq, Repr

/-- Embedding of check_batch_status_api (batch_crawler.py, lines 113-136):
the oracle api returns the provider status, or none when the call raises, in
which case the function returns the synthetic status "error". -/
def check_batch_status_api (api : String → Option String) (batch_id : String) :
    String :=
  match api batch_id with
  | some s => s
  | none => "error"

/-- The per-job state update of the crawler loop body (batch_crawler.py,
lines 279-299): status and last_checked are always overwritten with the API
result; on the synthetic "error" status retry_count is incremented. -/
def check_one (api : String → Option String) (now : String)
    (info : ProjectInfo) : ProjectInfo :=
  let api_status := check_batch_status_api api info.batch_id
  let updated := { info with status := api_status, last_checked := some now }
  if api_status = "error" then { updated with retry_count := updated.retry_count + 1 }
  else updated

/-- The check loop of one crawler cycle (batch_crawler.py, lines 268-301):
walks the registry in order, skips entries already in a terminal status,
updates every other entry in memory, collects the names that just reported
"completed", and emits one check event per API call (plus the warning when an
erroring job reaches retry_count 5).  No save happens inside this loop. -/
def check_phase (api : String → Option String) (now : String) :
    Registry → Registry × List String × List CrawlerEvent
  | [] => ([], [], [])
  | (name, info) :: rest =>
    if info.status ∈ terminal_statuses then
      let r := check_phase api now rest
      ((name, info) :: r.1, r.2.1, r.2.2)
    else
      let updated := check_one api now info
      let events := CrawlerEvent.check name updated.status ::
        (if updated.status = "error" ∧ 5 ≤ updated.retry_count then
          [CrawlerEvent.warn_persistent name]
        else [])
      let r := check_phase api now rest
      ((name, updated) :: r.1,
       (if updated.status = "completed" then [name] else []) ++ r.2.1,
       events ++ r.2.2)

/-- Script paths run by execute_post_batch_flow for a gpt_images batch. -/
def P2_BATCH_RETRIEVE_SCRIPT : String := "p2_gpt_batch_retrieve.py"

/-- Phase 2.5 video generation script path. -/
def P2_5_VIDEO_SCRIPT : String := "p2_5_hailuo_generate_videos.py"

/-- Phase 3 upload script path. -/
def P3_UPLOAD_SCRIPT : String := "p3_gdrive_upload.py"

/-- Embedding of execute_post_batch_flow (batch_crawler.py, lines 199-241).
run is the chained-subprocess oracle (true means exit code 0). For gpt_images:
abort on P2-B failure, run P2.5 but ignore its failure, abort on P3 failure.
For claude_prompts the chained flow is unimplemented and returns False.  Any
other batch_type falls through both branches and returns True. -/
def execute_post_batch_flow (run : String → Bool) (batch_type : String) : Bool :=
  if batch_type = "gpt_images" then
    if run P2_BATCH_RETRIEVE_SCRIPT = false then false
    else
      let _p25 := run P2_5_VIDEO_SCRIPT
      if run P3_UPLOAD_SCRIPT = false then false
      else true
  else if batch_type = "claude_prompts" then false
  else true

/-- Embedding of unregister_batch (batch_crawler.py, lines 103-110): re-loads
the registry FILE, deletes the entry if present, and saves.  Returns the new
file contents and the save events performed. -/
def unregister_batch (file : Registry) (name : String) :
    Registry × List CrawlerEvent :=
  if (file.lookup name).isSome then
    let file2 := file.filter (fun p => p.1 != name)
    (file2, [CrawlerEvent.save file2])
  else (file, [])

/-- In-memory dict mutation project_info["status"] = st for the entry named
name (batch_crawler.py line 323). -/
def set_status (reg : Registry) (name : String) (st : String) : Registry :=
  reg.map (fun p => if p.1 = name then (p.1, { p.2 with status := st }) else p)

/-- The post-flow loop of one crawler cycle (batch_crawler.py, lines 307-324).
mem is the in-memory status_data (still holding every project); file is the
current contents of batch_status.json.  On chain success the entry is removed
from the FILE via unregister_batch; on chain failure the IN-MEMORY dict gets
status post_flow_failed and is saved wholesale, which is what the file then
holds.  Returns (final mem, final file, events). -/
def post_flow_phase (run_for : String → String → Bool) :
    List String → Registry → Registry → Registry × Registry × List CrawlerEvent
  | [], mem, file => (mem, file, [])
  | name :: rest, mem, file =>
    match mem.lookup name with
    | none =>
      -- unreachable from crawler_cycle: completed names come from the registry
      post_flow_phase run_for rest mem file
    | some info =>
      if execute_post_batch_flow (run_for name) info.batch_type then
        let u := unregister_batch file name
        let r := post_flow_phase run_for rest mem u.1
        (r.1, r.2.1, u.2 ++ r.2.2)
      else
        let mem2 := set_status mem name "post_flow_failed"
        let r := post_flow_phase run_for rest mem2 mem2
        (r.1, r.2.1, CrawlerEvent.save mem2 :: r.2.2)

/-- One cycle of crawler_loop (batch_crawler.py, lines 254-328): load the
registry, skip the cycle when it is empty (lines 259-262), otherwise check
every entry, save the whole updated registry ONCE (line 304), then run the
post-flow for each newly completed project.  Returns the final registry file
contents and the event trace of the cycle. -/
def crawler_cycle (api : String → Option String) (run_for : String → String → Bool)
    (now : String) (registry : Registry) : Registry × List CrawlerEvent :=
  if registry.isEmpty then (registry, [])
  else
    let c := check_phase api now registry
    let pf := post_flow_phase run_for c.2.1 c.1 c.1
    (pf.2.1, c.2.2 ++ CrawlerEvent.save c.1 :: pf.2.2)

/-- Whether an event is a registry write. -/
def CrawlerEvent.isSave : CrawlerEvent → Bool
  | CrawlerEvent.save _ => true
  | _ => false

/-! ## Claim C1, C3, C4 theorems -/

/-- The check loop performs no registry write. -/
theorem check_phase_no_save (api : String → Option String) (now : String) :
    ∀ (reg : Registry), ∀ e ∈ (check_phase api now reg).2.2,
      e.isSave = false := by
  intro reg
  induction reg with
  | nil => intro e he; exact absurd he (List.not_mem_nil e)
  | cons hd tl ih =>
    obtain ⟨name, info⟩ := hd
    intro e he
    by_cases hterm : info.status ∈ terminal_statuses
    · rw [check_phase, if_pos hterm] at he
      exact ih e he
    · rw [check_phase, if_neg hterm] at he
      simp only [List.mem_append, List.mem_cons] at he
      rcases he with (h | h) | h
      · subst h; rfl
      · by_cases hw : (check_one api now info).status = "error"
            ∧ 5 ≤ (check_one api now info).retry_count
        · rw [if_pos hw] at h
          simp only [List.mem_singleton] at h
          subst h; rfl
        · rw [if_neg hw] at h
          exact absurd h (List.not_mem_nil e)
      · exact ih e h

/-- Every non-terminal registry entry appears with its updated state in the
in-memory registry produced by the check loop. -/
theorem check_phase_mem_updated (api : String → Option String) (now : String) :
    ∀ (reg : Registry) (name : String) (info : ProjectInfo),
      (name, info) ∈ reg → info.status ∉ terminal_statuses →
      (name, check_one api now info) ∈ (check_phase api now reg).1 := by
  intro reg
  induction reg with
  | nil => intro name info h _; exact absurd h (List.not_mem_nil _)
  | cons hd tl ih =>
    obtain ⟨n, i⟩ := hd
    intro name info hmem hnt
    rcases List.mem_cons.mp hmem with heq | htl
    · rw [Prod.mk.injEq] at heq
      obtain ⟨rfl, rfl⟩ := heq
      rw [check_phase, if_neg hnt]
      exact List.mem_cons_self _ _
    · by_cases hterm : i.status ∈ terminal_statuses
      · rw [check_phase, if_pos hterm]
        exact List.mem_cons_of_mem _ (ih name info htl hnt)
      · rw [check_phase, if_neg hterm]
        exact List.mem_cons_of_mem _ (ih name info htl hnt)

/-- C1 counterexample input: two watched projects, both still in progress. -/
def c1_info (bid : String) : ProjectInfo :=
  { batch_id := bid, batch_type := "gpt_images", status := "in_progress",
    submitted_at := "2024-01-01T00:00:00", last_checked := none,
    output_dir := "out", model_name := "claude", retry_count := 0 }

/-- A registry with two jobs for the C1 counterexample. -/
def c1_registry : Registry := [("alpha", c1_info "batch_a"), ("beta", c1_info "batch_b")]

/-- The cycle trace for the C1 counterexample (both status queries return
in_progress). -/
def c1_trace : List CrawlerEvent :=
  (crawler_cycle (fun _ => some "in_progress") (fun _ _ => true) "t1" c1_registry).2

/-- C1 counterexample: the claim says job alpha's updated state is written to
the registry file after alpha's check and before beta's check; but the first
two events of the cycle are the two checks back to back — no save of any kind
occurs between them (the lone check-phase save comes only after all checks). -/
theorem crawler_no_save_between_checks_counterexample :
    c1_trace.take 2 = [CrawlerEvent.check "alpha" "in_progress",
      CrawlerEvent.check "beta" "in_progress"]
    ∧ (c1_trace.take 2).filter CrawlerEvent.isSave = [] := by
  exact ⟨rfl, rfl⟩

/-- C1 amended: in every non-empty cycle the crawler persists the updated
states exactly once for the whole check loop: the trace is some save-free
prefix (the per-job checks and warnings) followed by one save holding every
non-terminal job's updated state, followed by the post-flow events.  Up to the
number of checked jobs, transitions are therefore held unpersisted within a
cycle. -/
theorem crawler_saves_once_after_all_checks (api : String → Option String)
    (run_for : String → String → Bool) (now : String) (reg : Registry)
    (hne : reg ≠ []) :
    ∃ pre post,
      (crawler_cycle api run_for now reg).2
        = pre ++ CrawlerEvent.save (check_phase api now reg).1 :: post
      ∧ (∀ e ∈ pre, e.isSave = false)
      ∧ ∀ name info, (name, info) ∈ reg → info.status ∉ terminal_statuses →
          (name, check_one api now info) ∈ (check_phase api now reg).1 := by
  have hne2 : reg.isEmpty = false := by
    cases reg with
    | nil => exact absurd rfl hne
    | cons a b => rfl
  refine ⟨(check_phase api now reg).2.2,
    (post_flow_phase run_for (check_phase api now reg).2.1
      (check_phase api now reg).1 (check_phase api now reg).1).2.2, ?_, ?_, ?_⟩
  · unfold crawler_cycle
    rw [hne2]
    rfl
  · exact check_phase_no_save api now reg
  · exact check_phase_mem_updated api now reg

/-- Witness for C1 amended at the two-project registry. -/
theorem crawler_saves_once_after_all_checks_witness :
    ∃ pre post,
      (crawler_cycle (fun _ => some "in_progress") (fun _ _ => true) "t1"
          c1_registry).2
        = pre ++ CrawlerEvent.save
            (check_phase (fun _ => some "in_progress") "t1" c1_registry).1 :: post
      ∧ (∀ e ∈ pre, e.isSave = false)
      ∧ ∀ name info, (name, info) ∈ c1_registry →
          info.status ∉ terminal_statuses →
          (name, check_one (fun _ => some "in_progress") "t1" info)
            ∈ (check_phase (fun _ => some "in_progress") "t1" c1_registry).1 :=
  crawler_saves_once_after_all_checks (fun _ => some "in_progress")
    (fun _ _ => true) "t1" c1_registry (by decide)

/-- C3 counterexample input: an in-progress job with two prior retries. -/
def c3_info : ProjectInfo :=
  { batch_id := "batch_x", batch_type := "gpt_images", status := "in_progress",
    submitted_at := "2024-01-01T00:00:00", last_checked := none,
    output_dir := "out", model_name := "claude", retry_count := 2 }

/-- C3 counterexample: on a transient API error the crawler does NOT leave the
job's recorded state unchanged — it overwrites the stored status (here
in_progress) with the synthetic status "error" while incrementing
retry_count. -/
theorem transient_error_changes_recorded_state_counterexample :
    (check_one (fun _ => none) "t2" c3_info).status = "error"
    ∧ (check_one (fun _ => none) "t2" c3_info).status ≠ c3_info.status
    ∧ (check_one (fun _ => none) "t2" c3_info).retry_count
        = c3_info.retry_count + 1 := by
  exact ⟨rfl, by decide, rfl⟩

/-- C3 amended: when the status query raises, the crawler increments
retry_count and records the synthetic status "error" (instead of keeping the
previous status); "error" is not terminal, so the job keeps being checked in
later cycles; and the only cycle events for such a job are its check plus, on
crossing the threshold of 5, a warning — the job is never marked terminal. -/
theorem transient_error_increments_retry_and_stays_watched
    (api : String → Option String) (now : String) (info : ProjectInfo)
    (herr : api info.batch_id = none)
    (hnt : info.status ∉ terminal_statuses) :
    (check_one api now info).retry_count = info.retry_count + 1
    ∧ (check_one api now info).status = "error"
    ∧ (check_one api now info).status ∉ terminal_statuses
    ∧ ∀ name, (check_phase api now [(name, info)]).2.2
        = CrawlerEvent.check name "error" ::
          (if 5 ≤ info.retry_count + 1 then [CrawlerEvent.warn_persistent name]
           else []) := by
  have hstat : check_batch_status_api api info.batch_id = "error" := by
    unfold check_batch_status_api
    rw [herr]
  have hone : check_one api now info
      = { info with
          status := "error",
          last_checked := some now,
          retry_count := info.retry_count + 1 } := by
    unfold check_one
    rw [hstat]
    rfl
  have h1 : (check_one api now info).status = "error" := by rw [hone]
  have h2 : (check_one api now info).retry_count = info.retry_count + 1 := by
    rw [hone]
  refine ⟨by rw [hone], h1, by rw [h1]; decide, ?_⟩
  intro name
  rw [check_phase, if_neg hnt]
  show (CrawlerEvent.check name (check_one api now info).status ::
      (if (check_one api now info).status = "error"
          ∧ 5 ≤ (check_one api now info).retry_count then
        [CrawlerEvent.warn_persistent name]
      else [])) ++ (check_phase api now []).2.2
    = CrawlerEvent.check name "error" ::
        (if 5 ≤ info.retry_count + 1 then [CrawlerEvent.warn_persistent name]
         else [])
  rw [h1, h2]
  simp [check_phase]

/-- Witness for C3 amended at the concrete erroring job. -/
theorem transient_error_increments_retry_witness :
    (check_one (fun _ => none) "t2" c3_info).retry_count
      = c3_info.retry_count + 1 :=
  (transient_error_increments_retry_and_stays_watched (fun _ => none) "t2"
    c3_info rfl (by decide)).1

/-- C4 failing input: two projects, both completing in the same cycle. -/
def c4_info (bid : String) : ProjectInfo :=
  { batch_id := bid, batch_type := "gpt_images", status := "in_progress",
    submitted_at := "2024-01-01T00:00:00", last_checked := none,
    output_dir := "out", model_name := "claude", retry_count := 0 }

/-- Registry for the C4 failing input. -/
def c4_registry : Registry := [("alpha", c4_info "batch_a"), ("beta", c4_info "batch_b")]

/-- Chained-subprocess oracle for C4: every script of project alpha succeeds,
every script of project beta fails. -/
def c4_run : String → String → Bool := fun project _ => project == "alpha"

/-- C4: the code contradicts the claim that a completed job whose chained
execution succeeds is removed from the registry.  With both jobs reported
completed, alpha's post-flow succeeds (conjunct 1) and unregister_batch does
delete it — but beta's subsequent post-flow failure re-saves the stale
in-memory registry, which still holds alpha, so the final persisted registry
retains alpha with status "completed" (conjunct 2) alongside beta marked
post_flow_failed (conjunct 3). -/
theorem successful_chain_entry_resurrected :
    execute_post_batch_flow (c4_run "alpha") "gpt_images" = true
    ∧ ((crawler_cycle (fun _ => some "completed") c4_run "t3" c4_registry).1.lookup
        "alpha").map ProjectInfo.status = some "completed"
    ∧ ((crawler_cycle (fun _ => some "completed") c4_run "t3" c4_registry).1.lookup
        "beta").map ProjectInfo.status = some "post_flow_failed" := by
  exact ⟨rfl, rfl, rfl⟩

/-! ## Synchronous per-item video path (scripts/p2_5_hailuo_generate_videos.py) -/

/-- Contents of video_checkpoint.json (load_checkpoint default, lines 184-189):
a completed list, a failed list, and a pending_tasks map index -> task id
(Python keys are str(idx); modelled with Nat keys). -/
structure VideoCheckpoint where
  completed : List Nat
  failed : List Nat
  pending_tasks : List (Nat × String)
deriving DecidableEq, Repr

/-- External interactions of the per-item loop: a submission attempt for an
index, a polling run against a task id, a download attempt for a file id. -/
inductive VideoEvent where
  | submit (idx : Nat)
  | poll (idx : Nat) (task_id : String)
  | download (idx : Nat) (file_id : String)
deriving DecidableEq, Repr

/-- The index an event belongs to. -/
def VideoEvent.index : VideoEvent → Nat
  | VideoEvent.submit i => i
  | VideoEvent.poll i _ => i
  | VideoEvent.download i _ => i

/-- checkpoint["pending_tasks"][str(idx)] = task_id (line 316). -/
def pending_set (cp : VideoCheckpoint) (idx : Nat) (tid : String) :
    VideoCheckpoint :=
  { cp with
    pending_tasks := cp.pending_tasks.filter (fun p => p.1 != idx) ++ [(idx, tid)] }

/-- checkpoint["pending_tasks"].pop(str(idx), None) (lines 325, 342, 358). -/
def pending_erase (cp : VideoCheckpoint) (idx : Nat) : VideoCheckpoint :=
  { cp with pending_tasks := cp.pending_tasks.filter (fun p => p.1 != idx) }

/-- One non-skipped iteration of the main loop (p2_5_hailuo_generate_videos.py,
lines 297-368).  submit_oracle models submit_video_task (none when submission
fails), poll_oracle models poll_task_status for a task id (none on failure or
timeout), download_oracle models download_video for a file id.  The checkpoint
is written to disk after every single mutation in the source; the returned
checkpoint is the state after this item. -/
def process_index (submit_oracle : Nat → Option String)
    (poll_oracle : String → Option String) (download_oracle : String → Bool)
    (cp : VideoCheckpoint) (idx : Nat) : VideoCheckpoint × List VideoEvent :=
  match submit_oracle idx with
  | none => ({ cp with failed := cp.failed ++ [idx] }, [VideoEvent.submit idx])
  | some task_id =>
    let cp1 := pending_set cp idx task_id
    match poll_oracle task_id with
    | none =>
      (pending_erase { cp1 with failed := cp1.failed ++ [idx] } idx,
       [VideoEvent.submit idx, VideoEvent.poll idx task_id])
    | some file_id =>
      if download_oracle file_id then
        (pending_erase { cp1 with completed := cp1.completed ++ [idx] } idx,
         [VideoEvent.submit idx, VideoEvent.poll idx task_id,
          VideoEvent.download idx file_id])
      else
        (pending_erase { cp1 with failed := cp1.failed ++ [idx] } idx,
         [VideoEvent.submit idx, VideoEvent.poll idx task_id,
          VideoEvent.download idx file_id])

/-- The main loop over the index list (p2_5_hailuo_generate_videos.py, lines
282-368).  completed_indices is set(checkpoint["completed"]) computed once
before the loop (line 271); indices in it are skipped with no external
interaction at all (line 287). -/
def video_go (submit_oracle : Nat → Option String)
    (poll_oracle : String → Option String) (download_oracle : String → Bool)
    (completed_indices : List Nat) :
    List Nat → VideoCheckpoint → VideoCheckpoint × List VideoEvent
  | [], cp => (cp, [])
  | idx :: rest, cp =>
    if idx ∈ completed_indices then
      video_go submit_oracle poll_oracle download_oracle completed_indices rest cp
    else
      let s := process_index submit_oracle poll_oracle download_oracle cp idx
      let r := video_go submit_oracle poll_oracle download_oracle
        completed_indices rest s.1
      (r.1, s.2 ++ r.2)

/-- The whole restart run: for i in range(total): idx = i + 1, over the
checkpoint loaded from disk. -/
def video_main_loop (submit_oracle : Nat → Option String)
    (poll_oracle : String → Option String) (download_oracle : String → Bool)
    (total : Nat) (cp0 : VideoCheckpoint) : VideoCheckpoint × List VideoEvent :=
  video_go submit_oracle poll_oracle download_oracle cp0.completed
    (List.range' 1 total) cp0

/-! ## Claim C9 theorems -/

/-- Every event of a non-skipped iteration belongs to that iteration's
index. -/
theorem process_index_events_own_index (so : Nat → Option String)
    (po : String → Option String) (dl : String → Bool) (cp : VideoCheckpoint)
    (idx : Nat) :
    ∀ e ∈ (process_index so po dl cp idx).2, e.index = idx := by
  intro e he
  cases hso : so idx with
  | none =>
    simp only [process_index, hso, List.mem_singleton] at he
    subst he; rfl
  | some tid =>
    cases hpo : po tid with
    | none =>
      simp [process_index, hso, hpo] at he
      rcases he with h | h <;> (subst h; rfl)
    | some fid =>
      by_cases hdl : dl fid
      · simp [process_index, hso, hpo, hdl] at he
        rcases he with h | h | h <;> (subst h; rfl)
      · simp [process_index, hso, hpo, hdl] at he
        rcases he with h | h | h <;> (subst h; rfl)

/-- A non-skipped iteration starts with a fresh submission for its index. -/
theorem process_index_submits (so : Nat → Option String)
    (po : String → Option String) (dl : String → Bool) (cp : VideoCheckpoint)
    (idx : Nat) :
    VideoEvent.submit idx ∈ (process_index so po dl cp idx).2 := by
  cases hso : so idx with
  | none => simp [process_index, hso]
  | some tid =>
    cases hpo : po tid with
    | none => simp [process_index, hso, hpo]
    | some fid =>
      by_cases hdl : dl fid
      · simp [process_index, hso, hpo, hdl]
      · simp [process_index, hso, hpo, hdl]

/-- A polling run for (idx, tid) only happens when the submission oracle just
returned tid for idx. -/
theorem process_index_poll_is_fresh (so : Nat → Option String)
    (po : String → Option String) (dl : String → Bool) (cp : VideoCheckpoint)
    (j idx : Nat) (tid : String) :
    VideoEvent.poll idx tid ∈ (process_index so po dl cp j).2 →
    so idx = some tid := by
  intro he
  cases hso : so j with
  | none =>
    simp [process_index, hso] at he
  | some tid2 =>
    cases hpo : po tid2 with
    | none =>
      simp [process_index, hso, hpo] at he
      obtain ⟨rfl, rfl⟩ := he
      exact hso
    | some fid =>
      by_cases hdl : dl fid
      · simp [process_index, hso, hpo, hdl] at he
        obtain ⟨rfl, rfl⟩ := he
        exact hso
      · simp [process_index, hso, hpo, hdl] at he
        obtain ⟨rfl, rfl⟩ := he
        exact hso

/-- No event of a run touches an index in the skip set. -/
theorem video_go_skips_completed (so : Nat → Option String)
    (po : String → Option String) (dl : String → Bool) (ci : List Nat) :
    ∀ (L : List Nat) (cp : VideoCheckpoint) (idx : Nat), idx ∈ ci →
      ∀ e ∈ (video_go so po dl ci L cp).2, e.index ≠ idx := by
  intro L
  induction L with
  | nil =>
    intro cp idx _ e he
    exact absurd he (List.not_mem_nil e)
  | cons j rest ih =>
    intro cp idx hci e he
    by_cases hj : j ∈ ci
    · rw [video_go, if_pos hj] at he
      exact ih cp idx hci e he
    · rw [video_go, if_neg hj] at he
      rcases List.mem_append.mp he with h | h
      · have := process_index_events_own_index so po dl cp j e h
        rw [this]
        intro hcontra
        subst hcontra
        exact hj hci
      · exact ih _ idx hci e h


/-- Every in-range index outside the skip set gets a fresh submission. -/
theorem video_go_submits_unskipped (so : Nat → Option String)
    (po : String → Option String) (dl : String → Bool) (ci : List Nat) :
    ∀ (L : List Nat) (cp : VideoCheckpoint) (idx : Nat), idx ∈ L → idx ∉ ci →
      VideoEvent.submit idx ∈ (video_go so po dl ci L cp).2 := by
  intro L
  induction L with
  | nil =>
    intro cp idx h _
    exact absurd h (List.not_mem_nil idx)
  | cons j rest ih =>
    intro cp idx hmem hci
    rcases List.mem_cons.mp hmem with rfl | htl
    · rw [video_go, if_neg hci]
      exact List.mem_append.mpr (Or.inl (process_index_submits so po dl cp idx))
    · by_cases hj : j ∈ ci
      · rw [video_go, if_pos hj]
        exact ih cp idx htl hci
      · rw [video_go, if_neg hj]
        exact List.mem_append.mpr (Or.inr (ih _ idx htl hci))

/-- Every polled task id was returned by the submission oracle for that index
during this same run. -/
theorem video_go_polls_only_fresh (so : Nat → Option String)
    (po : String → Option String) (dl : String → Bool) (ci : List Nat) :
    ∀ (L : List Nat) (cp : VideoCheckpoint) (idx : Nat) (tid : String),
      VideoEvent.poll idx tid ∈ (video_go so po dl ci L cp).2 →
      so idx = some tid := by
  intro L
  induction L with
  | nil =>
    intro cp idx tid h
    exact absurd h (List.not_mem_nil _)
  | cons j rest ih =>
    intro cp idx tid h
    by_cases hj : j ∈ ci
    · rw [video_go, if_pos hj] at h
      exact ih cp idx tid h
    · rw [video_go, if_neg hj] at h
      rcases List.mem_append.mp h with h2 | h2
      · exact process_index_poll_is_fresh so po dl cp j idx tid h2
      · exact ih _ idx tid h2

/-- C9: on restart with checkpoint cp0, (1) indices in cp0.completed are
skipped entirely — no submission, polling or download event touches them;
(2) every other index in range 1..total is submitted as fresh work (including
indices recorded in cp0.pending_tasks or cp0.failed); (3) every polling run
uses a task id the submission oracle returned for that index during this run;
hence (4) a stale task id recorded in cp0.pending_tasks that the submission
oracle never returns again is never polled. -/
theorem video_restart_resume_rule (so : Nat → Option String)
    (po : String → Option String) (dl : String → Bool) (total : Nat)
    (cp0 : VideoCheckpoint) :
    (∀ idx, idx ∈ cp0.completed →
      ∀ e ∈ (video_main_loop so po dl total cp0).2, e.index ≠ idx)
    ∧ (∀ idx, 1 ≤ idx → idx ≤ total → idx ∉ cp0.completed →
        VideoEvent.submit idx ∈ (video_main_loop so po dl total cp0).2)
    ∧ (∀ idx tid, VideoEvent.poll idx tid ∈ (video_main_loop so po dl total cp0).2 →
        so idx = some tid)
    ∧ (∀ idx tid, (idx, tid) ∈ cp0.pending_tasks →
        (∀ i, so i ≠ some tid) →
        ∀ j, VideoEvent.poll j tid ∉ (video_main_loop so po dl total cp0).2) := by
  refine ⟨?_, ?_, ?_, ?_⟩
  · intro idx hidx e he
    exact video_go_skips_completed so po dl cp0.completed _ cp0 idx hidx e he
  · intro idx h1 h2 hnc
    have hr : idx ∈ List.range' 1 total := by
      rw [List.mem_range']
      exact ⟨idx - 1, by omega⟩
    exact video_go_submits_unskipped so po dl cp0.completed _ cp0 idx hr hnc
  · intro idx tid h
    exact video_go_polls_only_fresh so po dl cp0.completed _ cp0 idx tid h
  · intro idx tid _ hfresh j hcontra
    exact hfresh j (video_go_polls_only_fresh so po dl cp0.completed _ cp0 j tid hcontra)

/-- Witness for C9: with a one-item checkpoint where item 1 is completed and a
stale pending task, the run over total 1 performs no events at all for
index 1. -/
theorem video_restart_resume_rule_witness :
    ∀ e ∈ (video_main_loop (fun _ => some "new_task") (fun _ => some "fid")
        (fun _ => true) 1
        { completed := [1], failed := [], pending_tasks := [(1, "old_task")] }).2,
      e.index ≠ 1 :=
  (video_restart_resume_rule (fun _ => some "new_task") (fun _ => some "fid")
    (fun _ => true) 1
    { completed := [1], failed := [], pending_tasks := [(1, "old_task")] }).1
    1 (List.mem_singleton.mpr rfl)

end AnimeBatch
